import Mathlib

/-!
Verification of the Xtream-Codes compatibility layer of m3u-filter.

This file gives a shallow embedding, in Lean 4, of the upstream normalizer
(src/processing/xtream_parser.rs) and of the Player API emulator and stream
relay (src/api/xtream_player_api.rs), together with theorems settling the
claims about them.

Conventions of the embedding:
- Rc<String> becomes String (reference counting is a sharing optimisation
  with no observable semantics).
- RefCell / interior mutability becomes plain functional record update.
- serde_json::Value becomes the JsonValue inductive below; f64 numbers are
  carried as Rat (they are only ever carried through verbatim, never
  computed with).
- The HashMap used for the category lookup becomes an association list with
  the HashMap's key semantics (insertion overwrites the value of an existing
  key); its unspecified iteration order is fixed to first-insertion order,
  which the claims do not depend on.
- Fallible HTTP/repository collaborators become explicit Option-valued
  functions supplied in an environment record.
-/

namespace M3uFilter

/-- Shallow model of serde_json::Value. Numbers are modelled as Rat: the
code never computes with them, it only copies them between records. -/
inductive JsonValue where
  | null
  | bool (b : Bool)
  | num (n : Rat)
  | str (s : String)
  | arr (elems : List JsonValue)
  | obj (fields : List (String × JsonValue))

/-- XtreamCluster from model_m3u, used by src/processing/xtream_parser.rs:
which of the three upstream endpoints the data came from. -/
inductive XtreamCluster where
  | Live
  | Video
  | Series
deriving DecidableEq

/-- default_as_empty_rc_str from model_config: the empty shared string. -/
def default_as_empty_rc_str : String := ""

/-- PlaylistItemHeader from model_m3u, with exactly the fields the
normalizer populates (src/processing/xtream_parser.rs lines 266-297).
The source field named rec is spelled rec_tag because rec is reserved
in Lean. -/
structure PlaylistItemHeader where
  id : String
  name : String
  logo : String
  logo_small : String
  group : String
  title : String
  parent_code : String
  audio_track : String
  time_shift : String
  rec_tag : String
  source : String
  url : String
  epg_channel_id : Option String
  xtream_cluster : XtreamCluster
  additional_properties : Option (List (String × JsonValue))

/-- PlaylistItem from model_m3u: wraps a header (the RefCell wrapper is
dropped; mutation becomes functional update). -/
structure PlaylistItem where
  header : PlaylistItemHeader

/-- PlaylistGroup from model_m3u: one output category. -/
structure PlaylistGroup where
  id : Int
  xtream_cluster : XtreamCluster
  title : String
  channels : List PlaylistItem

/-- XtreamCategory from src/processing/xtream_parser.rs lines 99-108:
one decoded upstream category record; channels accumulates the matched
items during processing. -/
structure XtreamCategory where
  category_id : String
  category_name : String
  channels : List PlaylistItem

/-- XtreamStream from src/processing/xtream_parser.rs lines 116-172: one
decoded upstream stream record. Fields arriving as unparseable numbers
decode to none (see deserialize_number_from_string). -/
structure XtreamStream where
  name : String
  category_id : String
  stream_id : Option Int
  series_id : Option Int
  stream_icon : String
  direct_source : String
  backdrop_path : Option (List String)
  added : Option String
  cast : Option String
  container_extension : Option String
  cover : Option String
  director : Option String
  episode_run_time : Option String
  genre : Option String
  last_modified : Option String
  plot : Option String
  rating : Option Rat
  rating_5based : Option Rat
  release_date : Option String
  stream_type : Option String
  title : Option String
  year : Option String
  youtube_trailer : Option String
  epg_channel_id : Option String
  tv_archive : Option Int
  tv_archive_duration : Option Int

/-- XtreamStream::get_stream_id (src/processing/xtream_parser.rs line 193):
prefer stream_id, else series_id, else the empty string; numeric ids are
rendered in decimal. -/
def XtreamStream.get_stream_id (s : XtreamStream) : String :=
  match s.stream_id with
  | some sid => toString sid
  | none =>
    match s.series_id with
    | some seid => toString seid
    | none => ""

/-- Helper of get_additional_properties: push a (name, string) pair when the
optional field is present (the add_str_property_if_exists macro). -/
def add_str_property (r : List (String × JsonValue)) (v : Option String)
    (nm : String) : List (String × JsonValue) :=
  match v with
  | some x => r ++ [(nm, JsonValue.str x)]
  | none => r

/-- Helper of get_additional_properties: push a (name, i64 number) pair when
the optional field is present (the add_i64_property_if_exists macro). -/
def add_i64_property (r : List (String × JsonValue)) (v : Option Int)
    (nm : String) : List (String × JsonValue) :=
  match v with
  | some x => r ++ [(nm, JsonValue.num (x : Rat))]
  | none => r

/-- Helper of get_additional_properties: push a (name, f64 number) pair when
the optional field is present (the add_f64_property_if_exists macro). -/
def add_f64_property (r : List (String × JsonValue)) (v : Option Rat)
    (nm : String) : List (String × JsonValue) :=
  match v with
  | some x => r ++ [(nm, JsonValue.num x)]
  | none => r

/-- XtreamStream::get_additional_properties (src/processing/xtream_parser.rs
lines 196-223): project every optional upstream field that is present into a
(name, value) pair, in source order; none if no field was present. -/
def XtreamStream.get_additional_properties (s : XtreamStream) :
    Option (List (String × JsonValue)) :=
  let result : List (String × JsonValue) := []
  let result :=
    match s.backdrop_path with
    | some bdpath =>
      if bdpath.isEmpty then result
      else result ++ [("backdrop_path", JsonValue.arr [JsonValue.str (bdpath.headD "")])]
    | none => result
  let result := add_str_property result s.added "added"
  let result := add_str_property result s.cast "cast"
  let result := add_str_property result s.container_extension "container_extension"
  let result := add_str_property result s.cover "cover"
  let result := add_str_property result s.director "director"
  let result := add_str_property result s.episode_run_time "episode_run_time"
  let result := add_str_property result s.genre "genre"
  let result := add_str_property result s.last_modified "last_modified"
  let result := add_str_property result s.plot "plot"
  let result := add_f64_property result s.rating "rating"
  let result := add_f64_property result s.rating_5based "rating_5based"
  let result := add_str_property result s.release_date "release_date"
  let result := add_str_property result s.stream_type "stream_type"
  let result := add_str_property result s.title "title"
  let result := add_str_property result s.year "year"
  let result := add_str_property result s.youtube_trailer "youtube_trailer"
  let result := add_i64_property result s.tv_archive "tv_archive"
  let result := add_i64_property result s.tv_archive_duration "tv_archive_duration"
  if result.isEmpty then none else some result

/-- The PlaylistItem construction of parse_xtream
(src/processing/xtream_parser.rs lines 265-298), including the per-cluster
URL synthesis at lines 279-293. Note that the Video arm of the source
builds its path with the live segment. -/
def make_playlist_item (xtream_cluster : XtreamCluster)
    (url username password : String) (title : String)
    (stream : XtreamStream) : PlaylistItem :=
  { header :=
    { id := stream.get_stream_id
      name := stream.name
      logo := stream.stream_icon
      logo_small := default_as_empty_rc_str
      group := title
      title := stream.name
      parent_code := default_as_empty_rc_str
      audio_track := default_as_empty_rc_str
      time_shift := default_as_empty_rc_str
      rec_tag := default_as_empty_rc_str
      source := default_as_empty_rc_str
      url :=
        if stream.direct_source = "" then
          match xtream_cluster with
          | XtreamCluster.Live =>
            url ++ "/live/" ++ username ++ "/" ++ password ++ "/"
              ++ stream.get_stream_id ++ ".ts"
          | XtreamCluster.Video =>
            let ext := stream.container_extension.getD "mp4"
            url ++ "/live/" ++ username ++ "/" ++ password ++ "/"
              ++ stream.get_stream_id ++ "." ++ ext
          | XtreamCluster.Series =>
            url ++ "/player_api.php?username=" ++ username ++ "&password="
              ++ password ++ "&action=get_series_info&series_id="
              ++ stream.get_stream_id
        else stream.direct_source
      epg_channel_id := stream.epg_channel_id
      xtream_cluster := xtream_cluster
      additional_properties := stream.get_additional_properties } }

/-- One step of building the category lookup of parse_xtream (line 256-259):
collecting into a HashMap keyed by category_id, a later record with an
already-present key overwrites the stored value. Iteration order of the map
is fixed to first-insertion order. -/
def insert_category (m : List XtreamCategory) (c : XtreamCategory) :
    List XtreamCategory :=
  if c.category_id ∈ m.map XtreamCategory.category_id then
    m.map (fun e => if e.category_id = c.category_id then c else e)
  else m ++ [c]

/-- One step of the stream loop of parse_xtream (lines 261-301): look the
stream's category up; when found, append the synthesized item to that
category's channels; when not found, leave everything unchanged. -/
def add_stream_item (xtream_cluster : XtreamCluster)
    (url username password : String) (entries : List XtreamCategory)
    (stream : XtreamStream) : List XtreamCategory :=
  if stream.category_id ∈ entries.map XtreamCategory.category_id then
    entries.map (fun grp =>
      if grp.category_id = stream.category_id then
        { grp with channels := grp.channels ++
            [make_playlist_item xtream_cluster url username password
              grp.category_name stream] }
      else grp)
  else entries

/-- parse_xtream (src/processing/xtream_parser.rs lines 245-319), after the
two decode steps have succeeded: build the category lookup, attach each
stream to its category, and emit one group per lookup entry with ids drawn
from the monotonic counter (fetch_add then load yields cnt+1, cnt+2, ...). -/
def parse_xtream (cat_id_cnt : Int) (xtream_cluster : XtreamCluster)
    (categories : List XtreamCategory) (url username password : String)
    (streams : List XtreamStream) : List PlaylistGroup :=
  ((streams.foldl (add_stream_item xtream_cluster url username password)
      (categories.foldl insert_category [])).enum).map (fun p =>
    { id := cat_id_cnt + (p.1 : Int) + 1
      xtream_cluster := xtream_cluster
      title := p.2.category_name
      channels := p.2.channels })

/-! ### JSON number decoding (deserialize_number_from_string) -/

/-- serde_json::from_str::<i32> applied to the content of a string field
(the fallback arm of deserialize_number_from_string,
src/processing/xtream_parser.rs line 43): the JSON integer grammar, an
optional minus sign then digits without a superfluous leading zero,
optionally surrounded by whitespace, with the value in i32 range;
everything else fails (none). -/
def parse_json_i32 (s : String) : Option Int :=
  let t := ((s.data.dropWhile Char.isWhitespace).reverse.dropWhile
    Char.isWhitespace).reverse
  let neg := t.head? = some '-'
  let ds := if neg then t.tail else t
  if ds = [] then none
  else if ¬ ds.all Char.isDigit then none
  else if ds.length > 1 ∧ ds.head? = some '0' then none
  else
    let n : Nat := ds.foldl (fun acc c => acc * 10 + (c.toNat - 48)) 0
    let v : Int := if neg then -(n : Int) else (n : Int)
    if -(2 ^ 31) ≤ v ∧ v < 2 ^ 31 then some v else none

/-- deserialize_number_from_string at its i32 instantiation
(src/processing/xtream_parser.rs lines 17-49). The untagged MaybeNumber
enum first tries Option<i32>: a JSON null gives none and an in-range
integer JSON number gives its value. A JSON string is captured by the
NumberString variant and its content re-parsed with serde_json::from_str;
any parse failure there is swallowed into Ok(None). Any other JSON shape
matches neither variant and is a decode error. -/
def deserialize_number_from_string (v : JsonValue) : Except String (Option Int) :=
  match v with
  | JsonValue.null => Except.ok none
  | JsonValue.num n =>
    if n.den = 1 ∧ -(2 ^ 31) ≤ n.num ∧ n.num < 2 ^ 31 then Except.ok (some n.num)
    else Except.error "data did not match any variant of untagged enum MaybeNumber"
  | JsonValue.str s => Except.ok (parse_json_i32 s)
  | JsonValue.bool _ =>
    Except.error "data did not match any variant of untagged enum MaybeNumber"
  | JsonValue.arr _ =>
    Except.error "data did not match any variant of untagged enum MaybeNumber"
  | JsonValue.obj _ =>
    Except.error "data did not match any variant of untagged enum MaybeNumber"

/-! ### Player API emulator (src/api/xtream_player_api.rs) -/

/-- TargetType from model_config, matched by ConfigTarget::has_output
(src/model/config.rs lines 288-295). -/
inductive TargetType where
  | M3u
  | Strm
  | Xtream
deriving DecidableEq

/-- One entry of a target's output list: the declared output kind and its
optional filename (src/model/config.rs, ConfigTargetOutput). -/
structure ConfigTargetOutput where
  target : TargetType
  filename : Option String

/-- ConfigTarget restricted to the fields the Player API handlers read:
its name and its declared outputs (src/model/config.rs). -/
structure ConfigTarget where
  name : String
  output : List ConfigTargetOutput

/-- ConfigTarget::has_output (src/model/config.rs lines 288-295): the
target declares at least one output of the given kind. -/
def ConfigTarget.has_output (t : ConfigTarget) (tt : TargetType) : Bool :=
  t.output.any (fun format => format.target == tt)

/-- UserCredentials from api_proxy: the downstream username and password
the resolver handed back (the fields read by src/api/xtream_player_api.rs). -/
structure UserCredentials where
  username : String
  password : String

/-- XtreamUserInfo from api_model, with exactly the fields that
get_user_info (src/api/xtream_player_api.rs lines 20-33) populates. -/
structure XtreamUserInfo where
  active_cons : String
  allowed_output_formats : List String
  auth : Nat
  created_at : Int
  exp_date : Int
  is_trial : String
  max_connections : String
  message : String
  password : String
  username : String
  status : String

/-- XtreamServerInfo from api_model, with exactly the fields that
get_user_info (src/api/xtream_player_api.rs lines 34-43) populates. -/
structure XtreamServerInfo where
  url : String
  port : Nat
  https_port : Nat
  server_protocol : String
  rtmp_port : Nat
  timezone : String
  timestamp_now : Int
  time_now : String

/-- XtreamAuthorizationResponse from api_model: the payload of an
empty-action Player API call. -/
structure XtreamAuthorizationResponse where
  user_info : XtreamUserInfo
  server_info : XtreamServerInfo

/-- The server block of the api-proxy configuration read by get_user_info
(src/api/xtream_player_api.rs line 18). -/
structure ApiProxyServerInfo where
  ip : String
  http_port : Nat
  https_port : Nat
  protocol : String
  rtmp_port : Nat
  timezone : String
  message : String

/-- UserApiRequest from api_model: the query parameters of a Player API
request, restricted to the fields the handler reads; serde defaults make
absent parameters empty strings. -/
structure UserApiRequest where
  action : String
  series_id : String
  vod_id : String

/-- get_user_info (src/api/xtream_player_api.rs lines 17-45): fabricate a
protocol-shaped authorization payload echoing the caller's credentials.
now is the current epoch second and now_formatted its chrono-formatted
rendering (the formatter itself is external); Duration::days(365) shifts
the timestamp by 365*86400 seconds. -/
def get_user_info (user : UserCredentials) (server : ApiProxyServerInfo)
    (now : Int) (now_formatted : String) : XtreamAuthorizationResponse :=
  { user_info :=
    { active_cons := "0"
      allowed_output_formats := ["ts"]
      auth := 1
      created_at := now - 365 * 86400
      exp_date := now + 365 * 86400
      is_trial := "0"
      max_connections := "1"
      message := server.message
      password := user.password
      username := user.username
      status := "Active" }
    server_info :=
    { url := server.ip
      port := server.http_port
      https_port := server.https_port
      server_protocol := server.protocol
      rtmp_port := server.rtmp_port
      timezone := server.timezone
      timestamp_now := now
      time_now := now_formatted } }

/-- The body of a modelled HTTP response. -/
inductive ResponseBody where
  | empty
  | authPayload (payload : XtreamAuthorizationResponse)
  | text (content : String)
  | filePayload (path : String)
  | streamed (bytes : String)

/-- A modelled HTTP response: status code, whether an explicit JSON content
type was set, and the body. -/
structure HttpResponse where
  status : Nat
  content_type_json : Bool
  body : ResponseBody

/-- HttpResponse::NoContent().finish(). -/
def no_content_response : HttpResponse :=
  { status := 204, content_type_json := false, body := ResponseBody.empty }

/-- HttpResponse::BadRequest().finish(). -/
def bad_request_response : HttpResponse :=
  { status := 400, content_type_json := false, body := ResponseBody.empty }

/-- HttpResponse::Unauthorized().finish(). -/
def unauthorized_response : HttpResponse :=
  { status := 401, content_type_json := false, body := ResponseBody.empty }

/-- Rust str::parse::<i32> (FromStr), used on the trimmed series_id/vod_id
at src/api/xtream_player_api.rs lines 122 and 133: an optional sign then
one or more ASCII digits, value within i32 range; anything else fails. -/
def parse_i32_from_str (s : String) : Option Int :=
  let neg := s.data.head? = some '-'
  let core := if s.data.head? = some '-' ∨ s.data.head? = some '+' then
    s.data.tail else s.data
  if core = [] then none
  else if core.all Char.isDigit then
    let n : Nat := core.foldl (fun acc c => acc * 10 + (c.toNat - 48)) 0
    let v : Int := if neg then -(n : Int) else (n : Int)
    if -(2 ^ 31) ≤ v ∧ v < 2 ^ 31 then some v else none
  else none

/-- Modelled from the spec: COL_CAT_LIVE of xtream_repository (not under
src/), an opaque collection-kind key; its exact string value is immaterial
here, it is only passed through to the repository lookup. -/
def COL_CAT_LIVE : String := "cat_live"

/-- Modelled from the spec: COL_CAT_VOD of xtream_repository (not under
src/), an opaque collection-kind key. -/
def COL_CAT_VOD : String := "cat_vod"

/-- Modelled from the spec: COL_CAT_SERIES of xtream_repository (not under
src/), an opaque collection-kind key. -/
def COL_CAT_SERIES : String := "cat_series"

/-- Modelled from the spec: COL_LIVE of xtream_repository (not under
src/), an opaque collection-kind key. -/
def COL_LIVE : String := "live"

/-- Modelled from the spec: COL_VOD of xtream_repository (not under src/),
an opaque collection-kind key. -/
def COL_VOD : String := "vod"

/-- Modelled from the spec: COL_SERIES of xtream_repository (not under
src/), an opaque collection-kind key. -/
def COL_SERIES : String := "series"

/-- Modelled from the spec: the collaborators the Player API emulator
calls but which are not under src/ (api_utils, api_proxy, the repository).
resolve is the result of get_user_target for this request's credentials;
get_series_info and get_vod_info look cached detail content up for the
resolved target and an id, none standing for the error case; get_all
yields the (file path?, inline payload?) pair for a collection kind, none
standing for a repository error; serve_file streams a file from disk. -/
structure ApiEnv where
  resolve : Option (UserCredentials × ConfigTarget)
  server : ApiProxyServerInfo
  now : Int
  now_formatted : String
  get_series_info : Int → Option String
  get_vod_info : Int → Option String
  get_all : String → Option (Option String × Option String)
  serve_file : String → HttpResponse

/-- xtream_player_api (src/api/xtream_player_api.rs lines 106-185): the
Player API dispatch. Credential resolution failure yields 401 for an empty
action and 400 otherwise; a resolved target without Xtream output yields
400; an empty (trimmed) action yields the authorization payload; the info
actions parse their id (400 on failure) and look the cached detail up (204
when absent); the listing actions fetch a pre-rendered artifact, a file
being served from disk, an inline payload returned directly, and anything
else, unknown actions included, yielding 204. -/
def xtream_player_api (env : ApiEnv) (req : UserApiRequest) : HttpResponse :=
  match env.resolve with
  | some (user, target) =>
    let action := req.action.trim
    if target.has_output TargetType.Xtream then
      if action = "" then
        { status := 200, content_type_json := true
          body := ResponseBody.authPayload
            (get_user_info user env.server env.now env.now_formatted) }
      else if action = "get_series_info" then
        match parse_i32_from_str req.series_id.trim with
        | some stream_id =>
          match env.get_series_info stream_id with
          | some content =>
            { status := 200, content_type_json := true
              body := ResponseBody.text content }
          | none => no_content_response
        | none => bad_request_response
      else if action = "get_vod_info" then
        match parse_i32_from_str req.vod_id.trim with
        | some stream_id =>
          match env.get_vod_info stream_id with
          | some content =>
            { status := 200, content_type_json := true
              body := ResponseBody.text content }
          | none => no_content_response
        | none => bad_request_response
      else
        match
          (if action = "get_live_categories" then env.get_all COL_CAT_LIVE
           else if action = "get_vod_categories" then env.get_all COL_CAT_VOD
           else if action = "get_series_categories" then env.get_all COL_CAT_SERIES
           else if action = "get_live_streams" then env.get_all COL_LIVE
           else if action = "get_vod_streams" then env.get_all COL_VOD
           else if action = "get_series" then env.get_all COL_SERIES
           else none) with
        | some (some file_path, _) => env.serve_file file_path
        | some (none, some payload) =>
          { status := 200, content_type_json := false
            body := ResponseBody.text payload }
        | some (none, none) => no_content_response
        | none => no_content_response
    else bad_request_response
  | none =>
    if req.action = "" then unauthorized_response
    else bad_request_response

/-! ### Stream relay (src/api/xtream_player_api.rs lines 47-103) -/

/-- The upstream HTTP response of the relay: whether its status is a
success, and its byte stream (abstracted to a string). -/
structure UpstreamResponse where
  status_success : Bool
  body : String
deriving DecidableEq

/-- Modelled from the spec: the upstream input configuration that
get_xtream_input_for_target (not under src/) returns. Per the spec an
input is only yielded with stored credentials, so username and password
are plain strings here; the handler unwraps the source's options. -/
structure XtreamInputConfig where
  url : String
  username : String
  password : String

/-- Modelled from the spec: the collaborators of the stream relay that are
not under src/. resolve is get_user_target_by_credentials for the path
credentials; input is get_xtream_input_for_target for the resolved target,
none when the target has no xtream input or its credentials are not
stored; fetch issues the upstream request with the input's configured
headers, none standing for a connection error. -/
structure StreamEnv where
  resolve : Option (UserCredentials × ConfigTarget)
  input : Option XtreamInputConfig
  fetch : String → Option UpstreamResponse

/-- xtream_player_api_stream (src/api/xtream_player_api.rs lines 47-76):
re-resolve the path credentials, require Xtream output and a configured
upstream input, build the upstream URL as
input.url/{context}/{input.username}/{input.password}/{stream_id}, and
relay a successful upstream response as a byte stream; every failure falls
through to Bad Request. -/
def xtream_player_api_stream (env : StreamEnv) (context : String)
    (username password stream_id : String) : HttpResponse :=
  match env.resolve with
  | some (_user, target) =>
    if target.has_output TargetType.Xtream then
      match env.input with
      | none => bad_request_response
      | some input =>
        let stream_url := input.url ++ "/" ++ context ++ "/" ++ input.username
          ++ "/" ++ input.password ++ "/" ++ stream_id
        match env.fetch stream_url with
        | some response =>
          if response.status_success then
            { status := 200, content_type_json := false
              body := ResponseBody.streamed response.body }
          else bad_request_response
        | none => bad_request_response
    else bad_request_response
  | none => bad_request_response

/-- xtream_player_api_live_stream (src/api/xtream_player_api.rs lines
78-85). -/
def xtream_player_api_live_stream (env : StreamEnv)
    (username password stream_id : String) : HttpResponse :=
  xtream_player_api_stream env "live" username password stream_id

/-- xtream_player_api_series_stream (src/api/xtream_player_api.rs lines
87-94). -/
def xtream_player_api_series_stream (env : StreamEnv)
    (username password stream_id : String) : HttpResponse :=
  xtream_player_api_stream env "series" username password stream_id

/-- xtream_player_api_movie_stream (src/api/xtream_player_api.rs lines
96-103). -/
def xtream_player_api_movie_stream (env : StreamEnv)
    (username password stream_id : String) : HttpResponse :=
  xtream_player_api_stream env "movie" username password stream_id

/-! ### Concrete sample inputs used by witnesses and counterexamples -/

/-- A stream record with only the claim-relevant fields set; every other
optional field is absent, mirroring a minimal upstream record. -/
def bare_stream (nm cat : String) (sid seid : Option Int) (ds : String)
    (ext : Option String) : XtreamStream :=
  { name := nm, category_id := cat, stream_id := sid, series_id := seid
    stream_icon := "", direct_source := ds, backdrop_path := none
    added := none, cast := none, container_extension := ext, cover := none
    director := none, episode_run_time := none, genre := none
    last_modified := none, plot := none, rating := none
    rating_5based := none, release_date := none, stream_type := none
    title := none, year := none, youtube_trailer := none
    epg_channel_id := none, tv_archive := none, tv_archive_duration := none }

/-- A sample api-proxy server block. -/
def sample_server : ApiProxyServerInfo :=
  { ip := "127.0.0.1", http_port := 80, https_port := 443
    protocol := "http", rtmp_port := 0, timezone := "UTC", message := "hi" }

/-- A sample target declaring Xtream output. -/
def sample_target : ConfigTarget :=
  { name := "t1", output := [{ target := TargetType.Xtream, filename := none }] }

/-- A sample resolved downstream user. -/
def sample_user : UserCredentials := { username := "alice", password := "secret" }

/-- A Player API environment in which credential resolution succeeds and
every repository lookup is empty. -/
def env_resolved : ApiEnv :=
  { resolve := some (sample_user, sample_target), server := sample_server
    now := 1000, now_formatted := "1970-01-01 00:16:40"
    get_series_info := fun _ => none, get_vod_info := fun _ => none
    get_all := fun _ => none, serve_file := fun _ => no_content_response }

/-- A Player API environment in which credential resolution fails. -/
def env_unresolved : ApiEnv :=
  { resolve := none, server := sample_server
    now := 1000, now_formatted := "1970-01-01 00:16:40"
    get_series_info := fun _ => none, get_vod_info := fun _ => none
    get_all := fun _ => none, serve_file := fun _ => no_content_response }

/-- A Player API environment whose repository holds cached series detail
content only for id 10. -/
def env_series : ApiEnv :=
  { resolve := some (sample_user, sample_target), server := sample_server
    now := 1000, now_formatted := "1970-01-01 00:16:40"
    get_series_info := fun sid => if sid = 10 then some "{}" else none
    get_vod_info := fun _ => none
    get_all := fun _ => none, serve_file := fun _ => no_content_response }

/-- A sample upstream input with stored credentials. -/
def sample_input_cfg : XtreamInputConfig :=
  { url := "http://up", username := "iu", password := "ip" }

/-- A relay environment whose upstream answers successfully exactly at the
movie URL for stream id 99. -/
def env_relay : StreamEnv :=
  { resolve := some (sample_user, sample_target)
    input := some sample_input_cfg
    fetch := fun u =>
      if u = "http://up/movie/iu/ip/99" then
        some { status_success := true, body := "BYTES" }
      else none }

/-! ### Helper lemmas about the category lookup and the stream loop -/

/-- Attaching a stream leaves the category ids of the lookup unchanged. -/
lemma add_stream_item_map_category_id (cl : XtreamCluster)
    (url username password : String) (entries : List XtreamCategory)
    (st : XtreamStream) :
    (add_stream_item cl url username password entries st).map
        XtreamCategory.category_id
      = entries.map XtreamCategory.category_id := by
  unfold add_stream_item
  split
  · rw [List.map_map]
    apply List.map_congr_left
    intro e _
    by_cases he : e.category_id = st.category_id <;> simp [Function.comp, he]
  · rfl

/-- The whole stream loop leaves the category ids of the lookup unchanged. -/
lemma foldl_add_stream_map_category_id (cl : XtreamCluster)
    (url username password : String) :
    ∀ (streams : List XtreamStream) (entries : List XtreamCategory),
      ((streams.foldl (add_stream_item cl url username password)
          entries).map XtreamCategory.category_id)
        = entries.map XtreamCategory.category_id := by
  intro streams
  induction streams with
  | nil => intro entries; rfl
  | cons st sts ih =>
    intro entries
    rw [List.foldl_cons, ih, add_stream_item_map_category_id]

/-- A category id present after one lookup insertion was already present or
is the inserted record's id. -/
lemma mem_ids_insert_category {x : String} {m : List XtreamCategory}
    {c : XtreamCategory}
    (h : x ∈ (insert_category m c).map XtreamCategory.category_id) :
    x ∈ m.map XtreamCategory.category_id ∨ x = c.category_id := by
  unfold insert_category at h
  split at h
  · rw [List.map_map] at h
    rcases List.mem_map.mp h with ⟨e, he, hex⟩
    by_cases hc : e.category_id = c.category_id
    · right
      simp only [Function.comp, if_pos hc] at hex
      exact hex.symm
    · left
      simp only [Function.comp, if_neg hc] at hex
      exact hex ▸ List.mem_map_of_mem XtreamCategory.category_id he
  · rw [List.map_append] at h
    rcases List.mem_append.mp h with h | h
    · exact Or.inl h
    · right
      simpa using h

/-- A category id present in the finished lookup stems from the decoded
category records (or from the accumulator it was built over). -/
lemma mem_ids_foldl_insert :
    ∀ (cats : List XtreamCategory) (acc : List XtreamCategory) (x : String),
      x ∈ (cats.foldl insert_category acc).map XtreamCategory.category_id →
      x ∈ acc.map XtreamCategory.category_id
        ∨ x ∈ cats.map XtreamCategory.category_id := by
  intro cats
  induction cats with
  | nil => intro acc x h; exact Or.inl h
  | cons c cs ih =>
    intro acc x h
    rcases ih (insert_category acc c) x h with h1 | h1
    · rcases mem_ids_insert_category h1 with h2 | h2
      · exact Or.inl h2
      · right; simp [h2]
    · right; simp [h1]

/-- A stream whose category id is absent from the lookup changes nothing. -/
lemma add_stream_item_of_not_mem {cl : XtreamCluster}
    {url username password : String} {entries : List XtreamCategory}
    {st : XtreamStream}
    (h : st.category_id ∉ entries.map XtreamCategory.category_id) :
    add_stream_item cl url username password entries st = entries := by
  unfold add_stream_item
  rw [if_neg h]

/-- A record of the finished lookup is either from the accumulator or one
of the inserted category records. -/
lemma mem_foldl_insert :
    ∀ (cats : List XtreamCategory) (acc : List XtreamCategory)
      (e : XtreamCategory),
      e ∈ cats.foldl insert_category acc → e ∈ acc ∨ e ∈ cats := by
  intro cats
  induction cats with
  | nil => intro acc e h; exact Or.inl h
  | cons c cs ih =>
    intro acc e h
    rcases ih (insert_category acc c) e h with h1 | h1
    · unfold insert_category at h1
      split at h1
      · rcases List.mem_map.mp h1 with ⟨x, hx, hxe⟩
        by_cases hc : x.category_id = c.category_id
        · rw [if_pos hc] at hxe
          right
          rw [← hxe]
          exact List.mem_cons_self c cs
        · rw [if_neg hc] at hxe
          exact Or.inl (hxe ▸ hx)
      · rcases List.mem_append.mp h1 with h2 | h2
        · exact Or.inl h2
        · right
          have h3 : e = c := by simpa using h2
          rw [h3]
          exact List.mem_cons_self c cs
    · right; simp [h1]

/-- When all category ids are distinct, building the lookup just appends
every record: the HashMap never overwrites. -/
lemma foldl_insert_of_nodup :
    ∀ (cats : List XtreamCategory) (acc : List XtreamCategory),
      ((acc ++ cats).map XtreamCategory.category_id).Nodup →
      cats.foldl insert_category acc = acc ++ cats := by
  intro cats
  induction cats with
  | nil => intro acc _; simp
  | cons c cs ih =>
    intro acc hnd
    have hcnotin : c.category_id ∉ acc.map XtreamCategory.category_id := by
      intro hmem
      rw [List.map_append] at hnd
      have hd := List.disjoint_of_nodup_append hnd
      exact hd hmem (by simp)
    rw [List.foldl_cons]
    have hins : insert_category acc c = acc ++ [c] := by
      unfold insert_category
      rw [if_neg hcnotin]
    rw [hins, ih (acc ++ [c])
      (by rw [List.append_assoc, List.singleton_append]; exact hnd),
      List.append_assoc, List.singleton_append]

/-- Attaching a stream preserves the number of lookup entries. -/
lemma add_stream_item_length (cl : XtreamCluster)
    (url username password : String) (entries : List XtreamCategory)
    (st : XtreamStream) :
    (add_stream_item cl url username password entries st).length
      = entries.length := by
  unfold add_stream_item
  split
  · rw [List.length_map]
  · rfl

/-- The whole stream loop preserves the number of lookup entries. -/
lemma foldl_add_stream_length (cl : XtreamCluster)
    (url username password : String) :
    ∀ (streams : List XtreamStream) (entries : List XtreamCategory),
      (streams.foldl (add_stream_item cl url username password)
          entries).length = entries.length := by
  intro streams
  induction streams with
  | nil => intro entries; rfl
  | cons st sts ih =>
    intro entries
    rw [List.foldl_cons, ih, add_stream_item_length]

/-- A lookup entry matched by no stream of the payload survives the stream
loop unchanged. -/
lemma mem_foldl_add_stream_of_untouched (cl : XtreamCluster)
    (url username password : String) :
    ∀ (streams : List XtreamStream) (entries : List XtreamCategory)
      (e : XtreamCategory),
      e ∈ entries → (∀ st ∈ streams, st.category_id ≠ e.category_id) →
      e ∈ streams.foldl (add_stream_item cl url username password) entries := by
  intro streams
  induction streams with
  | nil => intro entries e he _; exact he
  | cons st sts ih =>
    intro entries e he hunt
    rw [List.foldl_cons]
    refine ih _ e ?_ (fun s hs => hunt s (List.mem_cons_of_mem st hs))
    unfold add_stream_item
    split
    · refine List.mem_map.mpr ⟨e, he, ?_⟩
      rw [if_neg]
      intro hc
      exact hunt st (List.mem_cons_self st sts) hc.symm
    · exact he

/-- Every item that the stream loop adds to a lookup entry carries the
cluster being processed. -/
lemma add_stream_item_cluster_invariant {cl : XtreamCluster}
    {url username password : String} {entries : List XtreamCategory}
    {st : XtreamStream}
    (hP : ∀ e ∈ entries, ∀ it ∈ e.channels,
      it.header.xtream_cluster = cl) :
    ∀ e ∈ add_stream_item cl url username password entries st,
      ∀ it ∈ e.channels, it.header.xtream_cluster = cl := by
  intro e he it hit
  unfold add_stream_item at he
  split at he
  · rcases List.mem_map.mp he with ⟨x, hx, hxe⟩
    by_cases hc : x.category_id = st.category_id
    · rw [if_pos hc] at hxe
      rw [← hxe] at hit
      rcases List.mem_append.mp hit with h2 | h2
      · exact hP x hx it h2
      · have : it = make_playlist_item cl url username password
            x.category_name st := by simpa using h2
        rw [this]
        rfl
    · rw [if_neg hc] at hxe
      exact hP x hx it (hxe ▸ hit)
  · exact hP e he it hit

/-- The cluster invariant of the lookup entries survives the whole stream
loop. -/
lemma foldl_add_stream_cluster_invariant {cl : XtreamCluster}
    {url username password : String} :
    ∀ (streams : List XtreamStream) (entries : List XtreamCategory),
      (∀ e ∈ entries, ∀ it ∈ e.channels, it.header.xtream_cluster = cl) →
      ∀ e ∈ streams.foldl (add_stream_item cl url username password) entries,
        ∀ it ∈ e.channels, it.header.xtream_cluster = cl := by
  intro streams
  induction streams with
  | nil => intro entries hP; exact hP
  | cons st sts ih =>
    intro entries hP
    rw [List.foldl_cons]
    exact ih _ (add_stream_item_cluster_invariant hP)

/-! ### Claim theorems -/

/-- C1: the claim states that a Video-cluster stream without a direct
source gets the URL base/movie/user/pass/id.ext (ext defaulting to mp4).
The code (src/processing/xtream_parser.rs line 284) instead builds the
path with the live segment, base/live/user/pass/id.ext, while defaulting
the extension to mp4 as claimed; the surrounding routes serve VOD relays
under /movie, so the synthesized URL points at the wrong relay. This
theorem evaluates parse_xtream at the failing input. -/
theorem video_url_built_with_live_segment :
    (parse_xtream 0 XtreamCluster.Video
        [{ category_id := "7", category_name := "Movies", channels := [] }]
        "http://p.example" "u" "p"
        [bare_stream "m" "7" (some 42) none "" none]).map
        (fun g => g.channels.map (fun it => it.header.url))
      = [["http://p.example/live/u/p/42.mp4"]]
    ∧ "http://p.example/live/u/p/42.mp4" ≠ "http://p.example/movie/u/p/42.mp4" := by
  constructor
  · rfl
  · decide

/-- C2: a stream record with a non-empty direct-source field produces an
item whose URL is exactly that field; no URL is synthesized from the base
URL and credentials (src/processing/xtream_parser.rs lines 279-293). -/
theorem direct_source_used_verbatim (cl : XtreamCluster)
    (url username password title : String) (s : XtreamStream)
    (h : s.direct_source ≠ "") :
    (make_playlist_item cl url username password title s).header.url
      = s.direct_source := by
  unfold make_playlist_item
  simp [h]

/-- Witness for C2 at a concrete Video stream carrying a direct source. -/
theorem direct_source_used_verbatim_witness :
    (make_playlist_item XtreamCluster.Video "http://b" "u" "p" "G"
        (bare_stream "n" "1" (some 7) none "http://direct/x.mp4" none)).header.url
      = "http://direct/x.mp4" :=
  direct_source_used_verbatim XtreamCluster.Video "http://b" "u" "p" "G" _
    (by decide)

/-- C3: the item id prefers the decimal rendering of stream_id, falls back
to the decimal rendering of series_id, and is the empty string when both
are absent (src/processing/xtream_parser.rs line 193). -/
theorem stream_id_resolution (s : XtreamStream) :
    (∀ sid : Int, s.stream_id = some sid → s.get_stream_id = toString sid)
    ∧ (s.stream_id = none → ∀ seid : Int, s.series_id = some seid →
        s.get_stream_id = toString seid)
    ∧ (s.stream_id = none → s.series_id = none → s.get_stream_id = "") := by
  unfold XtreamStream.get_stream_id
  refine ⟨?_, ?_, ?_⟩
  · intro sid h
    rw [h]
  · intro h seid h2
    rw [h, h2]
  · intro h h2
    rw [h, h2]

/-- Witness for C3 at the three concrete field combinations. -/
theorem stream_id_resolution_witness :
    (bare_stream "n" "1" (some 5) none "" none).get_stream_id
        = toString (5 : Int)
    ∧ (bare_stream "n" "1" none (some 6) "" none).get_stream_id
        = toString (6 : Int)
    ∧ (bare_stream "n" "1" none none "" none).get_stream_id = "" :=
  ⟨(stream_id_resolution _).1 5 rfl,
   (stream_id_resolution _).2.1 rfl 6 rfl,
   (stream_id_resolution _).2.2 rfl rfl⟩

/-- C4: a stream record whose category_id matches no decoded category is
silently dropped: normalization (which is total once the payloads have
decoded) yields the same groups with and without the record
(src/processing/xtream_parser.rs lines 261-301). -/
theorem unmatched_stream_silently_dropped (cnt : Int) (cl : XtreamCluster)
    (cats : List XtreamCategory) (url username password : String)
    (l1 l2 : List XtreamStream) (s : XtreamStream)
    (h : s.category_id ∉ cats.map XtreamCategory.category_id) :
    parse_xtream cnt cl cats url username password (l1 ++ s :: l2)
      = parse_xtream cnt cl cats url username password (l1 ++ l2) := by
  unfold parse_xtream
  have h2 : s.category_id ∉
      ((l1.foldl (add_stream_item cl url username password)
        (cats.foldl insert_category [])).map XtreamCategory.category_id) := by
    rw [foldl_add_stream_map_category_id]
    intro hc
    rcases mem_ids_foldl_insert cats [] s.category_id hc with h3 | h3
    · simp at h3
    · exact h h3
  rw [List.foldl_append, List.foldl_append, List.foldl_cons,
    add_stream_item_of_not_mem h2]

/-- Witness for C4: dropping a stream pointing at the absent category 2
leaves the output unchanged. -/
theorem unmatched_stream_silently_dropped_witness :
    parse_xtream 0 XtreamCluster.Live
        [{ category_id := "1", category_name := "A", channels := [] }]
        "http://b" "u" "p"
        ([bare_stream "x" "1" (some 1) none "" none]
          ++ bare_stream "y" "2" (some 2) none "" none
          :: ([] : List XtreamStream))
      = parse_xtream 0 XtreamCluster.Live
        [{ category_id := "1", category_name := "A", channels := [] }]
        "http://b" "u" "p"
        ([bare_stream "x" "1" (some 1) none "" none] ++ []) :=
  unmatched_stream_silently_dropped 0 XtreamCluster.Live _ "http://b" "u" "p"
    _ _ _ (by decide)

/-- C5 counterexample: two decoded category records sharing category_id 1
yield a single group, not two — collecting into the HashMap at
src/processing/xtream_parser.rs lines 256-259 overwrites the earlier
record — refuting the claimed equal cardinality. -/
theorem duplicate_category_ids_coalesce :
    ¬ ((parse_xtream 0 XtreamCluster.Live
          [{ category_id := "1", category_name := "A", channels := [] },
           { category_id := "1", category_name := "B", channels := [] }]
          "http://p.example" "u" "p" []).length
        = ([{ category_id := "1", category_name := "A", channels := [] },
            { category_id := "1", category_name := "B", channels := [] }]
            : List XtreamCategory).length) := by
  decide

/-- C5 amended: when the decoded category records carry pairwise distinct
category ids (and, as decoded, empty channel lists), parse_xtream emits
exactly one group per category record, and a category matched by no stream
record is still emitted, with an empty channel list. -/
theorem groups_match_distinct_categories (cnt : Int) (cl : XtreamCluster)
    (cats : List XtreamCategory) (url username password : String)
    (streams : List XtreamStream)
    (hnodup : (cats.map XtreamCategory.category_id).Nodup)
    (hempty : ∀ c ∈ cats, c.channels = []) :
    (parse_xtream cnt cl cats url username password streams).length
        = cats.length
    ∧ ∀ c ∈ cats, (∀ st ∈ streams, st.category_id ≠ c.category_id) →
        ∃ g ∈ parse_xtream cnt cl cats url username password streams,
          g.title = c.category_name ∧ g.channels = [] := by
  have hmap : cats.foldl insert_category [] = cats := by
    have h := foldl_insert_of_nodup cats [] (by simpa using hnodup)
    simpa using h
  constructor
  · unfold parse_xtream
    rw [List.length_map, List.enum_length, foldl_add_stream_length, hmap]
  · intro c hc huntouched
    have hmem := mem_foldl_add_stream_of_untouched cl url username password
      streams cats c (hmap ▸ hc) huntouched
    unfold parse_xtream
    rw [hmap]
    have hsnd : c ∈ (streams.foldl (add_stream_item cl url username password)
        cats).enum.map Prod.snd := by
      rw [List.enum_map_snd]
      exact hmem
    rcases List.mem_map.mp hsnd with ⟨p, hp, hpc⟩
    refine ⟨_, List.mem_map_of_mem _ hp, ?_, ?_⟩
    · show p.2.category_name = c.category_name
      rw [hpc]
    · show p.2.channels = []
      rw [hpc]
      exact hempty c hc

/-- Witness for C5 amended: two distinct categories, one matched stream;
both groups are emitted and the unmatched category B keeps an empty
channel list. -/
theorem groups_match_distinct_categories_witness :
    (parse_xtream 0 XtreamCluster.Live
        [{ category_id := "1", category_name := "A", channels := [] },
         { category_id := "2", category_name := "B", channels := [] }]
        "http://b" "u" "p" [bare_stream "x" "1" (some 1) none "" none]).length
      = 2
    ∧ ∃ g ∈ parse_xtream 0 XtreamCluster.Live
          [{ category_id := "1", category_name := "A", channels := [] },
           { category_id := "2", category_name := "B", channels := [] }]
          "http://b" "u" "p" [bare_stream "x" "1" (some 1) none "" none],
        g.title = "B" ∧ g.channels = [] := by
  have h := groups_match_distinct_categories 0 XtreamCluster.Live
      [{ category_id := "1", category_name := "A", channels := [] },
       { category_id := "2", category_name := "B", channels := [] }]
      "http://b" "u" "p" [bare_stream "x" "1" (some 1) none "" none]
      (by decide)
      (by intro c hc
          rcases List.mem_cons.mp hc with h1 | h1
          · rw [h1]
          · rcases List.mem_cons.mp h1 with h2 | h2
            · rw [h2]
            · cases h2)
  exact ⟨h.1, h.2 { category_id := "2", category_name := "B", channels := [] }
    (by simp) (by decide)⟩

/-- C6: every item of every emitted group carries the group's cluster tag;
the decoded categories start with empty channel lists (the channels field
only accumulates items during processing), and every synthesized item is
tagged with the cluster being processed
(src/processing/xtream_parser.rs lines 265-312). -/
theorem items_carry_group_cluster (cnt : Int) (cl : XtreamCluster)
    (cats : List XtreamCategory) (url username password : String)
    (streams : List XtreamStream)
    (hempty : ∀ c ∈ cats, c.channels = []) :
    ∀ g ∈ parse_xtream cnt cl cats url username password streams,
      ∀ item ∈ g.channels, item.header.xtream_cluster = g.xtream_cluster := by
  intro g hg item hit
  unfold parse_xtream at hg
  rcases List.mem_map.mp hg with ⟨p, hp, hpg⟩
  have hsnd : p.2 ∈ streams.foldl (add_stream_item cl url username password)
      (cats.foldl insert_category []) := by
    rw [← List.enum_map_snd (streams.foldl
      (add_stream_item cl url username password)
      (cats.foldl insert_category []))]
    exact List.mem_map_of_mem Prod.snd hp
  have hbase : ∀ e ∈ cats.foldl insert_category [],
      ∀ it ∈ e.channels, it.header.xtream_cluster = cl := by
    intro e he it hit2
    rcases mem_foldl_insert cats [] e he with h1 | h1
    · cases h1
    · rw [hempty e h1] at hit2
      cases hit2
  subst hpg
  exact foldl_add_stream_cluster_invariant streams
    (cats.foldl insert_category []) hbase p.2 hsnd item hit

/-- Witness for C6: the single item of the single emitted Series group
carries the Series cluster. -/
theorem items_carry_group_cluster_witness :
    (make_playlist_item XtreamCluster.Series "http://b" "u" "p" "A"
        (bare_stream "x" "1" none (some 3) "" none)).header.xtream_cluster
      = XtreamCluster.Series := by
  have h := items_carry_group_cluster 0 XtreamCluster.Series
      [{ category_id := "1", category_name := "A", channels := [] }]
      "http://b" "u" "p" [bare_stream "x" "1" none (some 3) "" none]
      (by intro c hc
          rcases List.mem_cons.mp hc with h1 | h1
          · rw [h1]
          · cases h1)
  exact h
    { id := 1, xtream_cluster := XtreamCluster.Series, title := "A"
      channels := [make_playlist_item XtreamCluster.Series "http://b" "u" "p"
        "A" (bare_stream "x" "1" none (some 3) "" none)] }
    (List.mem_cons_self _ _) _ (List.mem_cons_self _ _)

/-- Evaluation of String.trim on the empty literal (trim is defined by
well-founded recursion, so the kernel cannot reduce it; these evaluation
lemmas unfold it once). -/
lemma trim_eval_empty : "".trim = "" := by
  simp +decide [String.trim, Substring.trim, Substring.takeWhileAux,
    Substring.takeRightWhileAux]

/-- Evaluation of String.trim on the get_series_info literal. -/
lemma trim_eval_gsi : "get_series_info".trim = "get_series_info" := by
  simp +decide [String.trim, Substring.trim, Substring.takeWhileAux,
    Substring.takeRightWhileAux]

/-- Evaluation of String.trim on the abc literal. -/
lemma trim_eval_abc : "abc".trim = "abc" := by
  simp +decide [String.trim, Substring.trim, Substring.takeWhileAux,
    Substring.takeRightWhileAux]

/-- Evaluation of String.trim on the 11 literal. -/
lemma trim_eval_11 : "11".trim = "11" := by
  simp +decide [String.trim, Substring.trim, Substring.takeWhileAux,
    Substring.takeRightWhileAux]

/-- Evaluation of String.trim on the 10 literal. -/
lemma trim_eval_10 : "10".trim = "10" := by
  simp +decide [String.trim, Substring.trim, Substring.takeWhileAux,
    Substring.takeRightWhileAux]

/-- C7: for an empty (trimmed) action with resolved credentials on an
Xtream-output target, the Player API answers 200 with the authorization
payload carrying auth = 1 and echoing the caller's username and password;
when resolution fails the answer is 401 for an empty action and 400 for a
non-empty one (src/api/xtream_player_api.rs lines 106-185). -/
theorem player_api_credential_statuses (env : ApiEnv) (req : UserApiRequest) :
    (∀ user target, env.resolve = some (user, target) →
        target.has_output TargetType.Xtream = true → req.action.trim = "" →
        xtream_player_api env req =
            { status := 200, content_type_json := true
              body := ResponseBody.authPayload
                (get_user_info user env.server env.now env.now_formatted) }
          ∧ (get_user_info user env.server env.now
              env.now_formatted).user_info.auth = 1
          ∧ (get_user_info user env.server env.now
              env.now_formatted).user_info.username = user.username
          ∧ (get_user_info user env.server env.now
              env.now_formatted).user_info.password = user.password)
    ∧ (env.resolve = none → req.action = "" →
        xtream_player_api env req = unauthorized_response)
    ∧ (env.resolve = none → req.action ≠ "" →
        xtream_player_api env req = bad_request_response) := by
  refine ⟨?_, ?_, ?_⟩
  · intro user target hres hout hact
    refine ⟨?_, rfl, rfl, rfl⟩
    simp [xtream_player_api, hres, hout, hact]
  · intro hres hact
    simp [xtream_player_api, hres, hact]
  · intro hres hact
    simp [xtream_player_api, hres, hact]

/-- Witness for C7 at concrete environments and requests. -/
theorem player_api_credential_statuses_witness :
    (xtream_player_api env_resolved
        { action := "", series_id := "", vod_id := "" }).status = 200
    ∧ (xtream_player_api env_unresolved
        { action := "", series_id := "", vod_id := "" }).status = 401
    ∧ (xtream_player_api env_unresolved
        { action := "get_series", series_id := "", vod_id := "" }).status
        = 400 := by
  have h1 := (player_api_credential_statuses env_resolved
      { action := "", series_id := "", vod_id := "" }).1
    sample_user sample_target rfl (by decide) trim_eval_empty
  have h2 := (player_api_credential_statuses env_unresolved
      { action := "", series_id := "", vod_id := "" }).2.1 rfl rfl
  have h3 := (player_api_credential_statuses env_unresolved
      { action := "get_series", series_id := "", vod_id := "" }).2.2 rfl
    (by decide)
  refine ⟨?_, ?_, ?_⟩
  · rw [h1.1]
  · rw [h2]
    rfl
  · rw [h3]
    rfl

/-- C8: an authorized get_series_info call answers 400 when the supplied
series_id does not parse as an integer, 204 when it parses but no cached
detail content exists, and 200 with a JSON content type and the cached
payload otherwise (src/api/xtream_player_api.rs lines 121-131). -/
theorem series_info_statuses (env : ApiEnv) (req : UserApiRequest)
    (user : UserCredentials) (target : ConfigTarget)
    (hres : env.resolve = some (user, target))
    (hout : target.has_output TargetType.Xtream = true)
    (hact : req.action.trim = "get_series_info") :
    (parse_i32_from_str req.series_id.trim = none →
        xtream_player_api env req = bad_request_response)
    ∧ (∀ sid, parse_i32_from_str req.series_id.trim = some sid →
        env.get_series_info sid = none →
        xtream_player_api env req = no_content_response)
    ∧ (∀ sid content, parse_i32_from_str req.series_id.trim = some sid →
        env.get_series_info sid = some content →
        xtream_player_api env req =
          { status := 200, content_type_json := true
            body := ResponseBody.text content }) := by
  refine ⟨?_, ?_, ?_⟩
  · intro hparse
    simp [xtream_player_api, hres, hout, hact, hparse]
  · intro sid hparse hinfo
    simp [xtream_player_api, hres, hout, hact, hparse, hinfo]
  · intro sid content hparse hinfo
    simp [xtream_player_api, hres, hout, hact, hparse, hinfo]

/-- Witness for C8: a non-numeric id, an absent numeric id, and a cached
numeric id, against a concrete repository. -/
theorem series_info_statuses_witness :
    xtream_player_api env_series
        { action := "get_series_info", series_id := "abc", vod_id := "" }
      = bad_request_response
    ∧ xtream_player_api env_series
        { action := "get_series_info", series_id := "11", vod_id := "" }
      = no_content_response
    ∧ xtream_player_api env_series
        { action := "get_series_info", series_id := "10", vod_id := "" }
      = { status := 200, content_type_json := true
          body := ResponseBody.text "{}" } := by
  refine ⟨?_, ?_, ?_⟩
  · refine (series_info_statuses env_series
      { action := "get_series_info", series_id := "abc", vod_id := "" }
      sample_user sample_target rfl (by decide) trim_eval_gsi).1 ?_
    have h : parse_i32_from_str ("abc".trim) = none := by
      rw [trim_eval_abc]
      decide
    exact h
  · refine (series_info_statuses env_series
      { action := "get_series_info", series_id := "11", vod_id := "" }
      sample_user sample_target rfl (by decide) trim_eval_gsi).2.1 11 ?_
      (by decide)
    have h : parse_i32_from_str ("11".trim) = some 11 := by
      rw [trim_eval_11]
      decide
    exact h
  · refine (series_info_statuses env_series
      { action := "get_series_info", series_id := "10", vod_id := "" }
      sample_user sample_target rfl (by decide) trim_eval_gsi).2.2 10 "{}"
      ?_ (by decide)
    have h : parse_i32_from_str ("10".trim) = some 10 := by
      rw [trim_eval_10]
      decide
    exact h

/-- C9: the stream relay answers Bad Request when credential resolution
fails, when the resolved target lacks Xtream output, when no upstream
input with stored credentials exists, when the upstream connection fails,
and when the upstream response is non-success; on success it streams the
body fetched from input.url/{kind}/{input.username}/{input.password}/{id}
(src/api/xtream_player_api.rs lines 47-76). -/
theorem stream_relay_contract (env : StreamEnv)
    (context username password stream_id : String) :
    (env.resolve = none →
        xtream_player_api_stream env context username password stream_id
          = bad_request_response)
    ∧ (∀ user target, env.resolve = some (user, target) →
        target.has_output TargetType.Xtream = false →
        xtream_player_api_stream env context username password stream_id
          = bad_request_response)
    ∧ (∀ user target, env.resolve = some (user, target) →
        target.has_output TargetType.Xtream = true → env.input = none →
        xtream_player_api_stream env context username password stream_id
          = bad_request_response)
    ∧ (∀ user target input, env.resolve = some (user, target) →
        target.has_output TargetType.Xtream = true →
        env.input = some input →
        env.fetch (input.url ++ "/" ++ context ++ "/" ++ input.username
          ++ "/" ++ input.password ++ "/" ++ stream_id) = none →
        xtream_player_api_stream env context username password stream_id
          = bad_request_response)
    ∧ (∀ user target input response, env.resolve = some (user, target) →
        target.has_output TargetType.Xtream = true →
        env.input = some input →
        env.fetch (input.url ++ "/" ++ context ++ "/" ++ input.username
          ++ "/" ++ input.password ++ "/" ++ stream_id) = some response →
        response.status_success = false →
        xtream_player_api_stream env context username password stream_id
          = bad_request_response)
    ∧ (∀ user target input response, env.resolve = some (user, target) →
        target.has_output TargetType.Xtream = true →
        env.input = some input →
        env.fetch (input.url ++ "/" ++ context ++ "/" ++ input.username
          ++ "/" ++ input.password ++ "/" ++ stream_id) = some response →
        response.status_success = true →
        xtream_player_api_stream env context username password stream_id
          = { status := 200, content_type_json := false
              body := ResponseBody.streamed response.body }) := by
  refine ⟨?_, ?_, ?_, ?_, ?_, ?_⟩
  · intro hres
    simp [xtream_player_api_stream, hres]
  · intro user target hres hout
    simp [xtream_player_api_stream, hres, hout]
  · intro user target hres hout hinput
    simp [xtream_player_api_stream, hres, hout, hinput]
  · intro user target input hres hout hinput hfetch
    simp [xtream_player_api_stream, hres, hout, hinput, hfetch]
  · intro user target input response hres hout hinput hfetch hfail
    simp [xtream_player_api_stream, hres, hout, hinput, hfetch, hfail]
  · intro user target input response hres hout hinput hfetch hok
    simp [xtream_player_api_stream, hres, hout, hinput, hfetch, hok]

/-- Witness for C9: a successful movie relay against a concrete upstream,
streaming the upstream body fetched from the synthesized URL. -/
theorem stream_relay_contract_witness :
    xtream_player_api_stream env_relay "movie" "alice" "secret" "99"
      = { status := 200, content_type_json := false
          body := ResponseBody.streamed "BYTES" } :=
  (stream_relay_contract env_relay "movie" "alice" "secret" "99").2.2.2.2.2
    sample_user sample_target sample_input_cfg
    { status_success := true, body := "BYTES" }
    rfl (by decide) rfl (by decide) rfl

/-- C10: a stream_id (or series_id) field arriving as a string that does
not parse as a number deserializes successfully to an absent value rather
than failing the payload decode (src/processing/xtream_parser.rs lines
17-49), and such a record's item id falls back to the series-id field or
the empty string (line 193). -/
theorem unparseable_stream_id_decodes_as_absent (s : String)
    (h : parse_json_i32 s = none) :
    deserialize_number_from_string (JsonValue.str s) = Except.ok none
    ∧ ∀ r : XtreamStream, r.stream_id = none →
        r.get_stream_id = (r.series_id.map toString).getD "" := by
  constructor
  · simp [deserialize_number_from_string, h]
  · intro r hr
    unfold XtreamStream.get_stream_id
    rw [hr]
    cases r.series_id <;> rfl

/-- Witness for C10 at the non-numeric string abc and a record falling
back to series id 9. -/
theorem unparseable_stream_id_decodes_as_absent_witness :
    deserialize_number_from_string (JsonValue.str "abc") = Except.ok none
    ∧ (bare_stream "n" "1" none (some 9) "" none).get_stream_id
        = (((some (9 : Int)).map toString).getD "") :=
  ⟨(unparseable_stream_id_decodes_as_absent "abc" (by decide)).1,
   (unparseable_stream_id_decodes_as_absent "abc" (by decide)).2 _ rfl⟩

end M3uFilter
